import Mathlib

/-!
Shallow embedding of `src/main.py` (PDF payslip extraction service).

Text is modelled as `List Char` / `String`, document bytes as `List Nat`
(values mod 256), and Python `float` values as exact rationals `ℚ`
(the decimal-literal grammar of `float(str)` is parsed exactly; binary
rounding of IEEE doubles is abstracted away).  The external PDF libraries
(`pypdf.PdfReader/PdfWriter`, `pdfminer.extract_text`) are modelled as an
abstract interface `PdfLib`; a raised exception is modelled as `none`.
-/

/-- Whitespace test modelling Python's `\s` class and `str.strip()` on the
ASCII range: space, tab, newline, carriage return, vertical tab, form feed. -/
def isWs (c : Char) : Bool :=
  c == ' ' || c == '\t' || c == '\n' || c == '\r' || c == '\x0b' || c == '\x0c'

/-- Remove leading and trailing whitespace, modelling Python `str.strip()`. -/
def stripWs (l : List Char) : List Char :=
  ((l.dropWhile isWs).reverse.dropWhile isWs).reverse

/-- Value of a decimal digit string (most significant first). -/
def digitsVal (l : List Char) : Nat :=
  l.foldl (fun n c => 10 * n + (c.toNat - 48)) 0

/-- Split an optional leading sign, modelling the sign part of Python's
`float(str)` grammar.  Returns (isNegative, rest). -/
def splitSign (l : List Char) : Bool × List Char :=
  match l with
  | '+' :: r => (false, r)
  | '-' :: r => (true, r)
  | r => (false, r)

/-- Parse the optional exponent part `([eE][+-]?digits)?` at the end of a
float literal.  Returns the signed exponent, or `none` when the remaining
characters are not a valid exponent (or not empty). -/
def parseExp (l : List Char) : Option Int :=
  match l with
  | [] => some 0
  | c :: r =>
    if c == 'e' || c == 'E' then
      match splitSign r with
      | (neg, r1) =>
        let ds := r1.takeWhile Char.isDigit
        let rest := r1.drop ds.length
        if ds.isEmpty then none
        else if rest.isEmpty then
          some (if neg then -(digitsVal ds : Int) else (digitsVal ds : Int))
        else none
    else none

/-- Syntactic part of Python's `float(str)` on decimal literals: optional
surrounding whitespace, optional sign, digits with an optional single `.`,
optional exponent; at least one digit must be present.  Any other shape
fails (`none` models the raised `ValueError`).  Returns
(isNegative, integer digits, fraction digits, exponent). -/
def pyFloatParts (l0 : List Char) : Option (Bool × List Char × List Char × Int) :=
  let l := stripWs l0
  match splitSign l with
  | (neg, l1) =>
    let ip := l1.takeWhile Char.isDigit
    let r1 := l1.drop ip.length
    let fp :=
      match r1 with
      | '.' :: r2 => r2.takeWhile Char.isDigit
      | _ => []
    let r3 :=
      match r1 with
      | '.' :: r2 => r2.drop fp.length
      | _ => r1
    if ip.isEmpty && fp.isEmpty then none
    else
      match parseExp r3 with
      | none => none
      | some e => some (neg, ip, fp, e)

/-- Exact rational value of a parsed decimal literal
`sign digits(ip) . digits(fp) e exp`. -/
def partsVal (neg : Bool) (ip fp : List Char) (e : Int) : ℚ :=
  let mant : ℚ := (digitsVal (ip ++ fp) : ℚ) / (10 ^ fp.length : ℚ)
  let v : ℚ :=
    if e < 0 then mant / (10 ^ (-e).toNat : ℚ) else mant * (10 ^ e.toNat : ℚ)
  if neg then -v else v

/-- Model of Python's `float(str)`: parse the decimal literal and take its
exact rational value (IEEE rounding is abstracted away). -/
def pyFloat (l0 : List Char) : Option ℚ :=
  (pyFloatParts l0).map (fun p => partsVal p.1 p.2.1 p.2.2.1 p.2.2.2)

/-- Embedding of `to_number_br` (src/main.py lines 28-35): `None`/empty
input gives `None`; otherwise every `.` is removed, `,` becomes `.`, and
the result is parsed as a float, with parse failure giving `None`.
The two single-character `str.replace` calls are rendered as a character
filter and a character map. -/
def to_number_br (s : Option String) : Option ℚ :=
  match s with
  | none => none
  | some t =>
    if t.data.isEmpty then none
    else pyFloat ((t.data.filter (fun c => !(c == '.'))).map
      (fun c => if c == ',' then '.' else c))

/-! ### Regex matchers

The three module-level patterns of src/main.py lines 24-26 are rendered as
direct string scanners with Python `re.search` semantics: leftmost match
wins, matching is case-insensitive (`re.I`), quantifiers are greedy with
backtracking.  Wherever a greedy `\s*` is followed by a character class
disjoint from whitespace, maximal munch needs no backtracking and is coded
as `dropWhile`/`takeWhile`. -/

/-- Case-insensitive character comparison (ASCII case folding, as used for
the ASCII literals of the patterns). -/
def ciEq (a b : Char) : Bool := a.toLower == b.toLower

/-- Match a literal pattern case-insensitively at the head of the text,
returning the remaining text on success. -/
def matchCI : List Char → List Char → Option (List Char)
  | [], t => some t
  | _ :: _, [] => none
  | p :: ps, c :: cs => if ciEq p c then matchCI ps cs else none

/-- Run a match-at-position function at every start position from left to
right (including the position at end of text) and return the first capture,
modelling `re.search` leftmost-match order. -/
def searchWith (m : List Char → Option (List Char)) : List Char → Option (List Char)
  | [] => m []
  | c :: t =>
    match m (c :: t) with
    | some cap => some cap
    | none => searchWith m t

/-- Character class `[\d.\-]` of `cpf_re`. -/
def isCpfChar (c : Char) : Bool := c.isDigit || c == '.' || c == '-'

/-- Match `cpf_re = CPF:\s*([\d.\-]+)` (re.I) at the current position,
returning the capture of group 1.  `\s` and `[\d.\-]` are disjoint, so the
greedy `\s*` is a maximal munch and the final `+` capture is the maximal
nonempty run. -/
def cpfMatchAt (l : List Char) : Option (List Char) :=
  match matchCI "cpf:".data l with
  | none => none
  | some r =>
    let cap := (r.dropWhile isWs).takeWhile isCpfChar
    if cap.isEmpty then none else some cap

/-- Characters allowed in the `nome_re` capture `[^\n\r]+`. -/
def isLineChar (c : Char) : Bool := !(c == '\n' || c == '\r')

/-- Take the maximal nonempty `[^\n\r]+` run at the head of the text. -/
def capLine (l : List Char) : Option (List Char) :=
  let cap := l.takeWhile isLineChar
  if cap.isEmpty then none else some cap

/-- Match the trailing `\s*\n?([^\n\r]+)` of `nome_re` with backtracking:
the greedy `\s*` first consumes `k` whitespace characters (initially the
maximal run) and backs off one character at a time; for each `k` the greedy
`\n?` first consumes a newline and then falls back to the empty match. -/
def nomeTrail (l : List Char) : Nat → Option (List Char)
  | 0 =>
    (match l with
     | '\n' :: rest => capLine rest
     | _ => none).elim (capLine l) some
  | k + 1 =>
    let l1 := l.drop (k + 1)
    match
      (match l1 with
       | '\n' :: rest => capLine rest
       | _ => none).elim (capLine l1) some with
    | some cap => some cap
    | none => nomeTrail l k

/-- Match `nome_re = Nome do (?:Colaborador|Funcion[aá]rio)\s*\n?([^\n\r]+)`
(re.I) at the current position, returning the capture of group 1.  The
class `[aá]` under `re.I` admits `a A á Á`. -/
def nomeMatchAt (l : List Char) : Option (List Char) :=
  match matchCI "nome do ".data l with
  | none => none
  | some r0 =>
    let alt :=
      match matchCI "colaborador".data r0 with
      | some r => some r
      | none =>
        match matchCI "funcion".data r0 with
        | none => none
        | some r =>
          match r with
          | c :: rest =>
            if c == 'a' || c == 'A' || c == 'á' || c == 'Á' then
              matchCI "rio".data rest
            else none
          | [] => none
    match alt with
    | none => none
    | some r1 => nomeTrail r1 ((r1.takeWhile isWs).length)

/-- Character class `[\d.\,]` of `liq_re`. -/
def isLiqChar (c : Char) : Bool := c.isDigit || c == '.' || c == ','

/-- Match `liq_re = SAL[ÁA]RIO L[ÍI]QUIDO\s*R\$\s*([\d.\,]+)` (re.I) at the
current position, returning the capture of group 1.  `[ÁA]` under `re.I`
admits `a A á Á`, and `[ÍI]` admits `i I í Í`.  Both `\s*` are followed by
characters disjoint from whitespace, hence maximal munch. -/
def liqMatchAt (l : List Char) : Option (List Char) :=
  match matchCI "sal".data l with
  | none => none
  | some r0 =>
    match r0 with
    | [] => none
    | c :: r1 =>
      if c == 'a' || c == 'A' || c == 'á' || c == 'Á' then
        match matchCI "rio l".data r1 with
        | none => none
        | some r2 =>
          match r2 with
          | [] => none
          | d :: r3 =>
            if d == 'i' || d == 'I' || d == 'í' || d == 'Í' then
              match matchCI "quido".data r3 with
              | none => none
              | some r4 =>
                match r4.dropWhile isWs with
                | [] => none
                | e :: r6 =>
                  if e == 'r' || e == 'R' then
                    match r6 with
                    | '$' :: r7 =>
                      let cap := (r7.dropWhile isWs).takeWhile isLiqChar
                      if cap.isEmpty then none else some cap
                    | _ => none
                  else none
            else none
      else none

/-- Per-page field record, the dict returned by `extract_fields_from_text`:
`{"nome": ..., "cpf": ..., "valor_liquido": ...}`. -/
structure PageFields where
  nome : String
  cpf : String
  valor_liquido : Option ℚ
  deriving Repr, DecidableEq

/-- Embedding of `extract_fields_from_text` (src/main.py lines 37-42):
three independent first-match searches, each capture stripped of
surrounding whitespace, an absent match giving `""`; the stripped net-value
capture (possibly `""`) goes through `to_number_br`. -/
def extract_fields_from_text (text : String) : PageFields :=
  let nome := ((searchWith nomeMatchAt text.data).map stripWs).getD []
  let cpf := ((searchWith cpfMatchAt text.data).map stripWs).getD []
  let liq := ((searchWith liqMatchAt text.data).map stripWs).getD []
  { nome := ⟨nome⟩, cpf := ⟨cpf⟩, valor_liquido := to_number_br (some ⟨liq⟩) }

/-! ### The PDF library interface and base64

`pypdf.PdfReader`, `pdfminer.extract_text` and `pypdf.PdfWriter` are
external collaborators; they are modelled as an abstract record of pure
functions where `none` stands for a raised exception.  `Page` is the
abstract type of page objects (`reader.pages[i]`). -/

/-- Abstract model of the PDF libraries used by src/main.py.
`parse` models `PdfReader` (returning the page list), `extractText` models
`pdfminer.extract_text(data, page_numbers=[i])`, and `writePage` models
adding one page to a `PdfWriter` and serialising it. -/
structure PdfLib (Page : Type) where
  parse : List Nat → Option (List Page)
  extractText : List Nat → Nat → Option String
  writePage : Page → Option (List Nat)

/-- Failure modes of `page_to_pdf_bytes`: the `IndexError` raised for an
out-of-range index, the parse exception raised by `PdfReader`, and any
other exception raised while writing the page. -/
inductive SplitError where
  | pageOutOfRange
  | invalidDocument
  | writeFailure
  deriving Repr, DecidableEq

/-- Embedding of `page_to_pdf_bytes` (src/main.py lines 44-53): parse the
document, validate `0 <= page_index < len(reader.pages)` (raising
`IndexError`, modelled as `pageOutOfRange`, when violated), and write the
selected page into a fresh single-page document. -/
def page_to_pdf_bytes {Page : Type} (L : PdfLib Page) (pdf_bytes : List Nat)
    (page_index : Int) : Except SplitError (List Nat) :=
  match L.parse pdf_bytes with
  | none => .error .invalidDocument
  | some pages =>
    if h : page_index < 0 ∨ (pages.length : Int) ≤ page_index then
      .error .pageOutOfRange
    else
      match L.writePage (pages.get ⟨page_index.toNat, by omega⟩) with
      | none => .error .writeFailure
      | some out => .ok out

/-- Alphabet of standard base64. -/
def b64Chars : List Char :=
  "ABCDEFGHIJKLMNOPQRSTUVWXYZabcdefghijklmnopqrstuvwxyz0123456789+/".data

/-- Character for a 6-bit group. -/
def b64Char (n : Nat) : Char := b64Chars.getD n 'A'

/-- Standard base64 of a byte list (values taken mod 256), modelling
`base64.b64encode(...).decode("utf-8")`. -/
def b64encode : List Nat → List Char
  | [] => []
  | [a] =>
    let a := a % 256
    [b64Char (a / 4), b64Char (a % 4 * 16), '=', '=']
  | [a, b] =>
    let a := a % 256
    let b := b % 256
    [b64Char (a / 4), b64Char (a % 4 * 16 + b / 16), b64Char (b % 16 * 4), '=']
  | a :: b :: c :: rest =>
    let a := a % 256
    let b := b % 256
    let c := c % 256
    b64Char (a / 4) :: b64Char (a % 4 * 16 + b / 16) ::
      b64Char (b % 16 * 4 + c / 64) :: b64Char (c % 64) :: b64encode rest

/-! ### The two request flows -/

/-- One report entry, the dict built at src/main.py lines 108-112:
`{"page": i + 1, **fields, "page_pdf_base64": ...}`. -/
structure PageResult where
  page : Nat
  nome : String
  cpf : String
  valor_liquido : Option ℚ
  page_pdf_base64 : String
  deriving Repr, DecidableEq

/-- Loop body of the bulk flow (src/main.py lines 92-112) for page index
`i`: page text isolation with exception-to-empty degradation, field
extraction, page splitting with exception-to-empty-string degradation,
base64 encoding. -/
def pageResult {Page : Type} (L : PdfLib Page) (data : List Nat) (i : Nat) :
    PageResult :=
  let page_text := (L.extractText data i).getD ""
  let fields := extract_fields_from_text page_text
  let page_pdf_b64 :=
    match page_to_pdf_bytes L data (i : Int) with
    | .ok b => (⟨b64encode b⟩ : String)
    | .error _ => ""
  { page := i + 1, nome := fields.nome, cpf := fields.cpf,
    valor_liquido := fields.valor_liquido, page_pdf_base64 := page_pdf_b64 }

/-- A report entry with empty name, empty tax id and absent net value, the
per-entry condition of the `all(...)` check at src/main.py line 114. -/
def emptyRec (r : PageResult) : Bool :=
  r.nome == "" && r.cpf == "" && r.valor_liquido.isNone

/-- Failure modes of the bulk flow `/extract`: `PDF inválido.` (HTTP 400)
and `Não foi possível extrair os campos.` (HTTP 422). -/
inductive ExtractError where
  | invalidDocument
  | emptyExtraction
  deriving Repr, DecidableEq

/-- Embedding of the `extract` endpoint body (src/main.py lines 83-117)
after the upload has been read: parse the document (fatal on failure),
build one entry per page index `0..num_pages-1` in order, and reject the
finished report when every entry is entirely empty. -/
def extract {Page : Type} (L : PdfLib Page) (data : List Nat) :
    Except ExtractError (List PageResult) :=
  match L.parse data with
  | none => .error .invalidDocument
  | some pages =>
    let results := (List.range pages.length).map (pageResult L data)
    if results.all emptyRec then .error .emptyExtraction
    else .ok results

/-- Failure modes of the single-page flow `/extract/page`:
`Página não encontrada.` (HTTP 404) and `Falha ao processar PDF.`
(HTTP 400). -/
inductive SingleError where
  | pageNotFound
  | processingFailure
  deriving Repr, DecidableEq

/-- Embedding of the `extract_single_page` endpoint body (src/main.py
lines 130-138): call `page_to_pdf_bytes` with the 1-based page number
shifted to a 0-based index, turning `IndexError` into 404 and any other
exception into 400; on success return the page bytes unchanged. -/
def extract_single_page {Page : Type} (L : PdfLib Page) (data : List Nat)
    (index : Int) : Except SingleError (List Nat) :=
  match page_to_pdf_bytes L data (index - 1) with
  | .ok b => .ok b
  | .error .pageOutOfRange => .error .pageNotFound
  | .error .invalidDocument => .error .processingFailure
  | .error .writeFailure => .error .processingFailure

/-! ### Concrete library instances

Small concrete `PdfLib` instances used to witness the theorems on
satisfiable inputs.  Pages are identified by bytes: a document is the list
of its page ids. -/

/-- Concrete library exercising every failure knob: a document whose first
byte is 255 fails to parse; text isolation fails on a page with id 2 and
yields a CPF line on a page with id 1; writing fails on a page with
id 99. -/
def testLib : PdfLib Nat where
  parse := fun data => if data.head? = some 255 then none else some data
  extractText := fun data i =>
    if data.getD i 0 == 2 then none
    else if data.getD i 0 == 1 then some "CPF: 123.456.789-00"
    else some ""
  writePage := fun p => if p == 99 then none else some [p]

/-- Concrete library on which parsing, text isolation and page writing
always succeed, and writing a page yields a document holding exactly that
page. -/
def soundLib : PdfLib Nat where
  parse := fun data => some data
  extractText := fun _ _ => some ""
  writePage := fun p => some [p]

/-- Library-side guarantee of the page writer (the pypdf `PdfWriter`
collaborator, per spec 4.4): serialising one page always succeeds and
yields a document that parses to exactly that page. -/
def PdfLib.WriterOk {Page : Type} (L : PdfLib Page) : Prop :=
  ∀ p, ∃ b, L.writePage p = some b ∧ L.parse b = some [p]

/-- The single report entry produced by `extract testLib [1]`. -/
def samplePageOne : PageResult where
  page := 1
  nome := ""
  cpf := "123.456.789-00"
  valor_liquido := none
  page_pdf_base64 := "AQ=="

/-! ### Theorems -/

/-- C6: for every input string the normalizer removes every `.`, turns `,`
into `.` and parses the result as a decimal number; absent, empty and
unparsable inputs all give absent, and no error escapes (the function is
total).  Concretely `normalize "2.987,32" = 2987.32`,
`normalize "" = absent`, `normalize None = absent`,
`normalize "abc" = absent`. -/
theorem to_number_br_spec :
    (∀ s : String, s ≠ "" →
      to_number_br (some s) =
        pyFloat ((s.data.filter (fun c => !(c == '.'))).map
          (fun c => if c == ',' then '.' else c))) ∧
    (∀ s : String,
      pyFloat ((s.data.filter (fun c => !(c == '.'))).map
          (fun c => if c == ',' then '.' else c)) = none →
        to_number_br (some s) = none) ∧
    to_number_br none = none ∧
    to_number_br (some "") = none ∧
    to_number_br (some "abc") = none ∧
    to_number_br (some "2.987,32") = some (2987.32 : ℚ) := by
  refine ⟨?_, ?_, rfl, rfl, rfl, ?_⟩
  · intro s hs
    have hd : ¬ s.data.isEmpty := by
      simpa [String.ext_iff, List.isEmpty_iff] using hs
    simp [to_number_br, hd]
  · intro s hparse
    by_cases hs : s = ""
    · subst hs; rfl
    have hd : ¬ s.data.isEmpty := by
      simpa [String.ext_iff, List.isEmpty_iff] using hs
    simp [to_number_br, hd]
    simpa using hparse
  · have h1 : to_number_br (some "2.987,32") = pyFloat "2987.32".data := rfl
    have h2 : pyFloatParts "2987.32".data =
        some (false, ['2', '9', '8', '7'], ['3', '2'], 0) := by decide
    have h3 : digitsVal (['2', '9', '8', '7'] ++ ['3', '2']) = 298732 := by decide
    rw [h1, pyFloat, h2, Option.map_some']
    simp only [partsVal, h3]
    norm_num

/-- C7: the field extractor runs three independent first-match searches
(whose captures are stripped); an unmatched field degrades to its own
default without touching the other fields.  Concretely the spec's four
sample texts give name JOÃO DA SILVA, tax id 123.456.789-00, net value
1234.56, and all-default respectively. -/
theorem extract_fields_from_text_spec :
    (∀ text : String,
      (extract_fields_from_text text).nome =
          (⟨((searchWith nomeMatchAt text.data).map stripWs).getD []⟩ : String) ∧
      (extract_fields_from_text text).cpf =
          (⟨((searchWith cpfMatchAt text.data).map stripWs).getD []⟩ : String) ∧
      (extract_fields_from_text text).valor_liquido =
          to_number_br (some ⟨((searchWith liqMatchAt text.data).map stripWs).getD []⟩)) ∧
    (∀ text : String, searchWith nomeMatchAt text.data = none →
      (extract_fields_from_text text).nome = "") ∧
    (∀ text : String, searchWith cpfMatchAt text.data = none →
      (extract_fields_from_text text).cpf = "") ∧
    (∀ text : String, searchWith liqMatchAt text.data = none →
      (extract_fields_from_text text).valor_liquido = none) ∧
    (extract_fields_from_text "Nome do Colaborador\nJOÃO DA SILVA").nome =
      "JOÃO DA SILVA" ∧
    (extract_fields_from_text "CPF: 123.456.789-00").cpf = "123.456.789-00" ∧
    (extract_fields_from_text "SALÁRIO LÍQUIDO R$ 1.234,56").valor_liquido =
      some (1234.56 : ℚ) ∧
    extract_fields_from_text "nothing here" =
      { nome := "", cpf := "", valor_liquido := none } := by
  refine ⟨fun text => ⟨rfl, rfl, rfl⟩, ?_, ?_, ?_, rfl, rfl, ?_, rfl⟩
  · intro text h
    simp [extract_fields_from_text, h]
  · intro text h
    simp [extract_fields_from_text, h]
  · intro text h
    simp [extract_fields_from_text, h]
    rfl
  · have h1 : (extract_fields_from_text "SALÁRIO LÍQUIDO R$ 1.234,56").valor_liquido =
        pyFloat "1234.56".data := rfl
    have h2 : pyFloatParts "1234.56".data =
        some (false, ['1', '2', '3', '4'], ['5', '6'], 0) := by decide
    have h3 : digitsVal (['1', '2', '3', '4'] ++ ['5', '6']) = 123456 := by decide
    rw [h1, pyFloat, h2, Option.map_some']
    simp only [partsVal, h3]
    norm_num

/-- Auxiliary closed checks for `to_number_br_spec`: its two universally
quantified parts applied at concrete inputs, with every hypothesis
discharged by evaluation. -/
theorem to_number_br_spec_witness :
    to_number_br (some "2.987,32") =
      pyFloat ((("2.987,32" : String).data.filter (fun c => !(c == '.'))).map
        (fun c => if c == ',' then '.' else c)) ∧
    to_number_br (some "x,y") = none :=
  ⟨to_number_br_spec.1 "2.987,32" (by decide),
   to_number_br_spec.2.1 "x,y" (by decide)⟩

/-- Auxiliary closed checks for `extract_fields_from_text_spec`: the three
degradation parts applied at a concrete label-free text. -/
theorem extract_fields_from_text_spec_witness :
    (extract_fields_from_text "plain page").nome = "" ∧
    (extract_fields_from_text "plain page").cpf = "" ∧
    (extract_fields_from_text "plain page").valor_liquido = none :=
  ⟨extract_fields_from_text_spec.2.1 "plain page" (by decide),
   extract_fields_from_text_spec.2.2.1 "plain page" (by decide),
   extract_fields_from_text_spec.2.2.2.1 "plain page" (by decide)⟩

/-- C4: the page splitter fails with the out-of-range condition exactly on
a parsable document and an index outside `[0, pageCount)`, fails with the
invalid-document condition when the bytes do not parse, and the two
conditions are distinct. -/
theorem page_to_pdf_bytes_failure_spec {Page : Type} (L : PdfLib Page)
    (data : List Nat) (i : Int) :
    (L.parse data = none → page_to_pdf_bytes L data i = .error .invalidDocument) ∧
    (∀ pages, L.parse data = some pages → (i < 0 ∨ (pages.length : Int) ≤ i) →
      page_to_pdf_bytes L data i = .error .pageOutOfRange) ∧
    SplitError.pageOutOfRange ≠ SplitError.invalidDocument := by
  refine ⟨?_, ?_, by decide⟩
  · intro h
    unfold page_to_pdf_bytes
    rw [h]
  · intro pages h hout
    unfold page_to_pdf_bytes
    rw [h]
    simp only [dif_pos hout]

/-- Closed check for `page_to_pdf_bytes_failure_spec`: an unparsable blob
gives the invalid-document condition, an out-of-range index on a one-page
document gives the out-of-range condition. -/
theorem page_to_pdf_bytes_failure_spec_witness :
    page_to_pdf_bytes testLib [255] 0 = .error .invalidDocument ∧
    page_to_pdf_bytes testLib [1] 5 = .error .pageOutOfRange :=
  ⟨(page_to_pdf_bytes_failure_spec testLib [255] 0).1 rfl,
   (page_to_pdf_bytes_failure_spec testLib [1] 5).2.1 [1] rfl (by decide)⟩

/-- C5: on a library whose writer meets its contract, splitting any
in-range page of a parsable document succeeds, and the produced bytes form
a structurally valid document with exactly one page — the requested one.
(The embedding is pure, so the input bytes are never mutated.) -/
theorem page_to_pdf_bytes_success_spec {Page : Type} (L : PdfLib Page)
    (hW : L.WriterOk) (data : List Nat) (pages : List Page)
    (h : L.parse data = some pages) (i : Nat) (hi : i < pages.length) :
    ∃ b, page_to_pdf_bytes L data (i : Int) = .ok b ∧
      L.writePage (pages.get ⟨i, hi⟩) = some b ∧
      L.parse b = some [pages.get ⟨i, hi⟩] := by
  obtain ⟨b, hwrite, hparse⟩ := hW (pages.get ⟨i, hi⟩)
  refine ⟨b, ?_, hwrite, hparse⟩
  unfold page_to_pdf_bytes
  rw [h]
  dsimp only
  have hout : ¬((i : Int) < 0 ∨ (pages.length : Int) ≤ (i : Int)) := by omega
  rw [dif_neg hout]
  have hget : (pages.get ⟨(i : Int).toNat, by omega⟩) = pages.get ⟨i, hi⟩ :=
    congrArg pages.get (Fin.ext (by simp))
  rw [hget, hwrite]

/-- C1: on a parsable document the bulk flow fails with the
empty-extraction condition exactly when every entry of the finished report
has empty name, empty tax id and absent net value; as soon as one entry
has one non-default field the flow succeeds and returns the full report. -/
theorem extract_empty_iff_spec {Page : Type} (L : PdfLib Page)
    (data : List Nat) (pages : List Page) (h : L.parse data = some pages) :
    (extract L data = .error .emptyExtraction ↔
      ∀ r ∈ (List.range pages.length).map (pageResult L data),
        r.nome = "" ∧ r.cpf = "" ∧ r.valor_liquido = none) ∧
    ((¬ ∀ r ∈ (List.range pages.length).map (pageResult L data),
        r.nome = "" ∧ r.cpf = "" ∧ r.valor_liquido = none) →
      extract L data = .ok ((List.range pages.length).map (pageResult L data))) := by
  have hx : extract L data =
      if ((List.range pages.length).map (pageResult L data)).all emptyRec then
        .error .emptyExtraction
      else .ok ((List.range pages.length).map (pageResult L data)) := by
    unfold extract
    rw [h]
  have hall : (((List.range pages.length).map (pageResult L data)).all emptyRec = true) ↔
      ∀ r ∈ (List.range pages.length).map (pageResult L data),
        r.nome = "" ∧ r.cpf = "" ∧ r.valor_liquido = none := by
    simp [emptyRec, List.all_eq_true, Option.isNone_iff_eq_none, and_assoc]
  rw [hx]
  by_cases hb : ((List.range pages.length).map (pageResult L data)).all emptyRec = true
  · rw [if_pos hb]
    exact ⟨⟨fun _ => hall.mp hb, fun _ => rfl⟩, fun hc => absurd (hall.mp hb) hc⟩
  · rw [if_neg hb]
    refine ⟨⟨fun hc => Except.noConfusion hc, fun hforall => absurd (hall.mpr hforall) hb⟩,
      fun _ => rfl⟩

/-- Closed check for `extract_empty_iff_spec`: a one-page document whose
page text carries a CPF line succeeds with its full report, and a two-page
document with no recognizable label fails with the empty-extraction
condition. -/
theorem extract_empty_iff_spec_witness :
    extract testLib [1] =
      .ok ((List.range ([1] : List Nat).length).map (pageResult testLib [1])) ∧
    extract testLib [0, 0] = .error .emptyExtraction :=
  ⟨(extract_empty_iff_spec testLib [1] [1] rfl).2 (by decide),
   (extract_empty_iff_spec testLib [0, 0] [0, 0] rfl).1.mpr (by decide)⟩

/-- C2: a report accepted by the bulk flow has exactly one entry per page
of the input, and its page numbers are exactly `1..pageCount` (the list
`range' 1 pageCount`), strictly ascending. -/
theorem extract_shape_spec {Page : Type} (L : PdfLib Page) (data : List Nat)
    (pages : List Page) (rs : List PageResult)
    (h : L.parse data = some pages) (hok : extract L data = .ok rs) :
    rs.length = pages.length ∧
    rs.map PageResult.page = List.range' 1 pages.length ∧
    List.Pairwise (· < ·) (rs.map PageResult.page) := by
  have hx : extract L data =
      if ((List.range pages.length).map (pageResult L data)).all emptyRec then
        .error .emptyExtraction
      else .ok ((List.range pages.length).map (pageResult L data)) := by
    unfold extract
    rw [h]
  rw [hx] at hok
  by_cases hb : ((List.range pages.length).map (pageResult L data)).all emptyRec = true
  · rw [if_pos hb] at hok
    exact Except.noConfusion hok
  · rw [if_neg hb] at hok
    have hrs : rs = (List.range pages.length).map (pageResult L data) :=
      (Except.ok.injEq _ _ ▸ hok).symm
    subst hrs
    have hpage : ((List.range pages.length).map (pageResult L data)).map PageResult.page =
        List.range' 1 pages.length := by
      rw [List.map_map]
      have : (PageResult.page ∘ pageResult L data) = (fun i => 1 + i) := by
        funext i
        simp [pageResult, Nat.add_comm]
      rw [this, List.range_eq_range', List.map_add_range']
    refine ⟨by simp, hpage, ?_⟩
    rw [hpage]
    exact List.pairwise_lt_range' 1 pages.length

/-- Closed check for `extract_shape_spec`: the accepted report for a
one-page document has one entry and page-number list `[1]`. -/
theorem extract_shape_spec_witness :
    [samplePageOne].length = ([1] : List Nat).length ∧
    [samplePageOne].map PageResult.page = List.range' 1 ([1] : List Nat).length ∧
    List.Pairwise (· < ·) ([samplePageOne].map PageResult.page) :=
  extract_shape_spec testLib [1] [1] [samplePageOne] rfl (by rfl)

/-- C3: inside the bulk flow, a text-isolation failure on page `i` only
degrades that page's fields to their defaults, a splitting failure on page
`j` only empties that page's base64 payload, and with the initial parse
done the whole request can only end in the empty-extraction failure or in
the full report — never in the invalid-document failure. -/
theorem extract_degrade_spec {Page : Type} (L : PdfLib Page) (data : List Nat)
    (pages : List Page) (i j : Nat) (e : SplitError)
    (hp : L.parse data = some pages)
    (hi : L.extractText data i = none)
    (hj : page_to_pdf_bytes L data (j : Int) = .error e) :
    (pageResult L data i).nome = "" ∧
    (pageResult L data i).cpf = "" ∧
    (pageResult L data i).valor_liquido = none ∧
    (pageResult L data j).page_pdf_base64 = "" ∧
    (extract L data = .error .emptyExtraction ∨
     extract L data = .ok ((List.range pages.length).map (pageResult L data))) := by
  have hempty : extract_fields_from_text "" =
      { nome := "", cpf := "", valor_liquido := none } := rfl
  refine ⟨?_, ?_, ?_, ?_, ?_⟩
  · simp [pageResult, hi, hempty]
  · simp [pageResult, hi, hempty]
  · simp [pageResult, hi, hempty]
  · simp [pageResult, hj]
  · have hx : extract L data =
        if ((List.range pages.length).map (pageResult L data)).all emptyRec then
          .error .emptyExtraction
        else .ok ((List.range pages.length).map (pageResult L data)) := by
      unfold extract
      rw [hp]
    rw [hx]
    by_cases hb : ((List.range pages.length).map (pageResult L data)).all emptyRec = true
    · exact Or.inl (by rw [if_pos hb])
    · exact Or.inr (by rw [if_neg hb])

/-- Closed check for `extract_degrade_spec`, on the two-page document
`[2, 99]` of the test library: page 0's text isolation fails and its
fields are all default, page 1's write fails and its base64 payload is
empty, and the request still ends in one of the two aggregate outcomes. -/
theorem extract_degrade_spec_witness :
    (pageResult testLib [2, 99] 0).nome = "" ∧
    (pageResult testLib [2, 99] 0).cpf = "" ∧
    (pageResult testLib [2, 99] 0).valor_liquido = none ∧
    (pageResult testLib [2, 99] 1).page_pdf_base64 = "" ∧
    (extract testLib [2, 99] = .error .emptyExtraction ∨
     extract testLib [2, 99] =
       .ok ((List.range ([2, 99] : List Nat).length).map (pageResult testLib [2, 99]))) :=
  extract_degrade_spec testLib [2, 99] [2, 99] 0 1 .writeFailure rfl rfl (by rfl)

/-- C9: the bulk flow is a pure function of the document bytes (and of the
PDF library): equal inputs give identical reports.  The source keeps no
mutable module state — the compiled patterns are read-only constants — so
the embedding is a pure function and determinism is its congruence. -/
theorem extract_deterministic {Page : Type} (L : PdfLib Page)
    (d1 d2 : List Nat) (h : d1 = d2) : extract L d1 = extract L d2 := by
  rw [h]

/-- Closed check for `extract_deterministic` at a concrete document. -/
theorem extract_deterministic_witness :
    extract testLib [0, 0] = extract testLib [0, 0] :=
  extract_deterministic testLib [0, 0] [0, 0] rfl

/-- C10: a structurally valid document with zero pages makes the bulk flow
fail with the empty-extraction condition (the all-empty check holds
vacuously over the empty report). -/
theorem extract_zero_pages_spec {Page : Type} (L : PdfLib Page)
    (data : List Nat) (h : L.parse data = some ([] : List Page)) :
    extract L data = .error .emptyExtraction := by
  unfold extract
  rw [h]
  rfl

/-- Closed check for `extract_zero_pages_spec`: the empty document of the
sound library parses to zero pages and is rejected. -/
theorem extract_zero_pages_spec_witness :
    extract soundLib [] = .error .emptyExtraction :=
  extract_zero_pages_spec soundLib [] rfl

/-- Closed check for `page_to_pdf_bytes_success_spec`: splitting page 1 of
the three-page document `[5, 6, 7]` on the sound library yields the
single-page document `[6]`. -/
theorem page_to_pdf_bytes_success_spec_witness :
    ∃ b, page_to_pdf_bytes soundLib [5, 6, 7] ((1 : Nat) : Int) = .ok b ∧
      soundLib.writePage ([5, 6, 7].get ⟨1, by decide⟩) = some b ∧
      soundLib.parse b = some [[5, 6, 7].get ⟨1, by decide⟩] :=
  page_to_pdf_bytes_success_spec soundLib (fun p => ⟨[p], rfl, rfl⟩)
    [5, 6, 7] [5, 6, 7] rfl 1 (by decide)

/-- C8: the single-page flow returns exactly the splitter's bytes at the
0-based index `index - 1`; its two failure surfaces correspond exactly to
the splitter's failure modes (404 to the out-of-range condition, 400 to a
parse or write failure).  Concretely, 1-based page 1 of the three-page
document `[10, 20, 30]` gives the same bytes `[10]` as the splitter at
0-based index 0. -/
theorem extract_single_page_spec {Page : Type} (L : PdfLib Page)
    (data : List Nat) (index : Int) :
    (∀ b, extract_single_page L data index = .ok b ↔
      page_to_pdf_bytes L data (index - 1) = .ok b) ∧
    (extract_single_page L data index = .error .pageNotFound ↔
      page_to_pdf_bytes L data (index - 1) = .error .pageOutOfRange) ∧
    (extract_single_page L data index = .error .processingFailure ↔
      (page_to_pdf_bytes L data (index - 1) = .error .invalidDocument ∨
       page_to_pdf_bytes L data (index - 1) = .error .writeFailure)) ∧
    extract_single_page soundLib [10, 20, 30] 1 = .ok [10] ∧
    page_to_pdf_bytes soundLib [10, 20, 30] 0 = .ok [10] := by
  refine ⟨?_, ?_, ?_, rfl, rfl⟩ <;>
    · unfold extract_single_page
      cases hsplit : page_to_pdf_bytes L data (index - 1) with
      | ok b => simp
      | error e => cases e <;> simp
